import Mathlib

/-!
Verification development for the CCB conversational-analysis pipeline.

The Python sources are shallow-embedded below: text is modelled as `List Char`
(Python indexes strings by code point, which matches `String.data`), machine
floats that only carry exact decimal constants are modelled as `Rat`, and
Python code that can raise is modelled by `Except String`.  ASCII models are
used for `str.lower`, `str.strip` whitespace and the regex class `\w`
(Python uses the Unicode versions; every pattern and cue in this repository
is ASCII apart from a typographic apostrophe, which is unaffected by case
folding and is a non-word character in both models).
-/

/-- ASCII model of the whitespace set stripped by Python `str.strip()` and
matched by `\s`. -/
def isPySpace (c : Char) : Bool :=
  c = ' ' || c = '\t' || c = '\n' || c = '\x0d' || c = '\x0b' || c = '\x0c'

/-- ASCII model of the regex word-character class `\w`: alphanumerics and
underscore. -/
def isWordChar (c : Char) : Bool :=
  c.isAlphanum || c = '_'

/-- ASCII model of Python `str.lower()` applied characterwise. -/
def pyLowerL (l : List Char) : List Char :=
  l.map Char.toLower

/-- Python truthiness check `not text or not text.strip()`: true exactly when
the string is empty or consists of whitespace only. -/
def isBlankL (l : List Char) : Bool :=
  l.all isPySpace

def isBlank (s : String) : Bool :=
  isBlankL s.data

/-- Python `str.strip()`: remove leading and trailing whitespace. -/
def pyStrip (l : List Char) : List Char :=
  ((l.dropWhile isPySpace).reverse.dropWhile isPySpace).reverse

/-- Python `str.rstrip()`: remove trailing whitespace. -/
def pyRstrip (l : List Char) : List Char :=
  (l.reverse.dropWhile isPySpace).reverse

/-- Python substring containment `sub in t` (`str.__contains__`). -/
def containsSub (sub l : List Char) : Bool :=
  (List.range (l.length + 1)).any fun i => (l.drop i).take sub.length == sub

/-- Word-character status of the character at index `i`; positions outside the
string count as non-word for `\b` purposes. -/
def wordB (l : List Char) (i : Nat) : Bool :=
  match l.get? i with
  | some c => isWordChar c
  | none => false

/-- One position of the whole-word regex search `\b w \b` at offset `i`:
the pattern characters occur at `i` and the zero-width `\b` assertions hold
on both sides (a boundary is a flip of word-character status, with positions
outside the string counting as non-word). -/
def wordMatchAt (w l : List Char) (i : Nat) : Bool :=
  ((l.drop i).take w.length == w) &&
  (match w.head?, w.getLast? with
   | some c0, some cl =>
     ((if i = 0 then false else wordB l (i - 1)) != isWordChar c0) &&
     (wordB l (i + w.length) != isWordChar cl)
   | _, _ => false)

/-- `re.search` of the pattern `\b w \b` over `l` (both already lowercased,
modelling `re.IGNORECASE`). -/
def wordSearch (w l : List Char) : Bool :=
  (List.range (l.length + 1)).any fun i => wordMatchAt w l i

/-- Number of maximal runs of the character `c`, i.e.
`len(re.findall(c+"+", s))`: count positions holding `c` whose predecessor
does not (`prev` tracks whether the previous character was `c`). -/
def runCountAux (c : Char) : List Char → Bool → Nat
  | [], _ => 0
  | x :: xs, prev =>
    (if x == c && !prev then 1 else 0) + runCountAux c xs (x == c)

/-- Number of maximal runs of `c` in `l` (entry point, no previous char). -/
def runCount (c : Char) (l : List Char) : Nat :=
  runCountAux c l false

-- ---------------------------------------------------------------------------
-- EmotionClassifier (src/emotion_classifier.py)
-- ---------------------------------------------------------------------------

namespace EmotionClassifier

/-- `EmotionClassifier.LEXICON`: per-emotion word weights, in source order. -/
def LEXICON : List (String × List (String × Nat)) :=
  [("joy",
    [("happy", 2), ("joy", 2), ("glad", 1), ("love", 1), ("great", 1),
     ("awesome", 2), ("excited", 2), ("amazing", 2), ("wonderful", 2), ("wow", 1),
     ("fantastic", 2), ("delighted", 2), ("pleased", 1)]),
   ("sadness",
    [("sad", 2), ("down", 1), ("depressed", 2), ("unhappy", 2),
     ("cry", 2), ("tears", 2), ("lonely", 1), ("hopeless", 2),
     ("miserable", 2), ("heartbroken", 2), ("blue", 1)]),
   ("anger",
    [("angry", 2), ("mad", 2), ("furious", 2), ("rage", 2),
     ("annoyed", 1), ("irritated", 1), ("resentful", 2), ("hostile", 2)]),
   ("fear",
    [("afraid", 2), ("scared", 2), ("fear", 2), ("anxious", 2),
     ("nervous", 1), ("terrified", 2), ("worried", 1), ("panic", 2)]),
   ("surprise",
    [("surprised", 2), ("shocked", 2), ("unexpected", 1),
     ("astonished", 2), ("amazed", 2), ("startled", 2)]),
   ("tired",
    [("tired", 2), ("exhausted", 2), ("drained", 2), ("fatigued", 2),
     ("sleepy", 1), ("weary", 2), ("burnt out", 2)])]

/-- `EmotionClassifier.PRIORITY_ORDER`. -/
def PRIORITY_ORDER : List String :=
  ["joy", "sadness", "anger", "fear", "surprise", "tired", "neutral"]

/-- Lexicon part of `_score_text`: for one emotion, sum the weights of the
whole-word matches (`re.search(rf"\b{re.escape(w)}\b", txt)`). -/
def lexiconScore (ws : List (String × Nat)) (txt : List Char) : Nat :=
  ws.foldl (fun acc p => acc + (if wordSearch (pyLowerL p.1.data) txt then p.2 else 0)) 0

/-- Update an association list at a key by adding `v` (model of
`scores[k] += v` for a key already present). -/
def bumpKey (k : String) (v : Nat) : List (String × Nat) → List (String × Nat)
  | [] => []
  | p :: rest => if p.1 = k then (p.1, p.2 + v) :: rest else p :: bumpKey k v rest

/-- Inquiry-word check used for question marks:
`any(word in txt for word in ["really", "seriously", "what", "unexpected"])`. -/
def inquiryHit (txt : List Char) : Bool :=
  ["really", "seriously", "what", "unexpected"].any fun w => containsSub w.data txt

/-- `EmotionClassifier._score_text` on the lowercased text: lexicon scores in
dict insertion order, then each run of `!` adds 1 to joy, and each run of `?`
adds 1 to surprise when an inquiry word co-occurs, otherwise inserts/bumps a
trailing `neutral` entry (`scores.get("neutral", 0) + questions`). -/
def score_text (txt : List Char) : List (String × Nat) :=
  let base := LEXICON.map fun e => (e.1, lexiconScore e.2 txt)
  let excl := runCount '!' txt
  let afterExcl := if excl > 0 then bumpKey "joy" excl base else base
  let questions := runCount '?' txt
  if questions > 0 then
    if inquiryHit txt then bumpKey "surprise" questions afterExcl
    else afterExcl ++ [("neutral", questions)]
  else afterExcl

/-- Python `max` over the (always non-empty) score values. -/
def maxOf (l : List Nat) : Nat :=
  l.foldr max 0

/-- `EmotionClassifier.classify`. -/
def classify (text : String) : String :=
  if isBlank text then "neutral"
  else
    let scores := score_text (pyLowerL text.data)
    let maxScore := maxOf (scores.map Prod.snd)
    if maxScore = 0 then "neutral"
    else
      let top := (scores.filter fun p => p.2 == maxScore).map Prod.fst
      match PRIORITY_ORDER.find? (fun p => top.contains p) with
      | some p => p
      | none => "neutral"

end EmotionClassifier

example : EmotionClassifier.classify "I am so tired and exhausted, can you help?" = "tired" := by
  decide

example : EmotionClassifier.classify "" = "neutral" := by decide

example : EmotionClassifier.classify "wow great!" = "joy" := by decide

-- ---------------------------------------------------------------------------
-- IntentClassifier (src/intent_classifier.py)
-- ---------------------------------------------------------------------------

/-- A compiled pattern: the raw regex source string (whose Python length
drives the confidence heuristic) together with its search function on
lowercased text (modelling `re.IGNORECASE`). -/
structure PatP where
  raw : String
  m : List Char → Bool

/-- Keyword/phrase pattern `\b w \b`. -/
def wordPat (w : String) : PatP :=
  ⟨"\\b" ++ w ++ "\\b", fun l => wordSearch (pyLowerL w.data) l⟩

/-- Backtracking matcher for `.*\?$` anchored at the current position: a run
of non-newline characters, then `?`, then `$` (which in Python matches at the
end of the string or just before one final newline). -/
def dotStarQEnd : List Char → Bool
  | [] => false
  | c :: rest =>
    (c == '?' && (rest == [] || rest == ['\n'])) || (c != '\n' && dotStarQEnd rest)

/-- `re.search(".*\?$", l)`: the unanchored pattern matches from some start
position. -/
def searchQEnd (l : List Char) : Bool :=
  (List.range (l.length + 1)).any fun i => dotStarQEnd (l.drop i)

/-- `".*\?$"` (question) pattern. -/
def qendPat : PatP :=
  ⟨".*\\?$", searchQEnd⟩

/-- Matcher for `^(k1|k2|...)\b.*\?$`: anchored keyword alternation, a word
boundary, then non-newline characters up to a final `?`. -/
def anchoredKwQ (kws : List String) (l : List Char) : Bool :=
  kws.any fun k =>
    match k.data.getLast? with
    | some cl =>
      (l.take k.data.length == k.data) &&
      (wordB l k.data.length != isWordChar cl) &&
      dotStarQEnd (l.drop k.data.length)
    | none => false

def yesnoPat : PatP :=
  ⟨"^(is|are|do|does|can|will|would|should|could)\\b.*\\?$",
   anchoredKwQ ["is", "are", "do", "does", "can", "will", "would", "should", "could"]⟩

def whPat : PatP :=
  ⟨"^(who|what|when|where|why|how)\\b.*\\?$",
   anchoredKwQ ["who", "what", "when", "where", "why", "how"]⟩

/-- Scan a suffix: does a `?` occur before any newline (the `.*\?` tail of the
choice pattern, where `.*` cannot cross a newline)? -/
def qBeforeNewline : List Char → Bool
  | [] => false
  | c :: rest =>
    if c == '?' then true else if c == '\n' then false else qBeforeNewline rest

/-- `re.search(".*\bor\b.*\?", l)`: some whole-word occurrence of `or`
followed, within the same line, by a `?`. -/
def searchOrThenQ (l : List Char) : Bool :=
  (List.range (l.length + 1)).any fun j =>
    wordMatchAt ['o', 'r'] l j && qBeforeNewline (l.drop (j + 2))

def choicePat : PatP :=
  ⟨".*\\bor\\b.*\\?", searchOrThenQ⟩

/-- Matcher for a final run of `!` (`!{1,}$`) starting at the current
position. -/
def bangTailEnd : List Char → Bool
  | [] => false
  | c :: rest => c == '!' && ((rest == [] || rest == ['\n']) || bangTailEnd rest)

/-- `re.search(".*!{1,}$", l)`: some position starts a run of `!` that ends
the string (the leading `.*` absorbs any non-newline prefix, and search tries
every start, so only the run position matters). -/
def searchBangEnd (l : List Char) : Bool :=
  (List.range (l.length + 1)).any fun i => bangTailEnd (l.drop i)

def exclPat : PatP :=
  ⟨".*!\x7b1,\x7d$", searchBangEnd⟩

namespace IntentClassifier

/-- `DEFAULT_INTENTS`, category by category, in dict insertion order. -/
def greetingPats : List PatP :=
  [wordPat "hi", wordPat "hello", wordPat "hey", wordPat "good morning", wordPat "good evening"]

def goodbyePats : List PatP :=
  [wordPat "bye", wordPat "farewell", wordPat "see you", wordPat "take care", wordPat "good night"]

def helpRequestPats : List PatP :=
  [wordPat "help", wordPat "support", wordPat "assistance", wordPat "can you help"]

def questionPats : List PatP := [qendPat]

def yesNoQuestionPats : List PatP := [yesnoPat]

def whQuestionPats : List PatP := [whPat]

def choiceQuestionPats : List PatP := [choicePat]

def feedbackPats : List PatP :=
  [wordPat "like", wordPat "love", wordPat "hate", wordPat "feedback", wordPat "dislike"]

def opinionPats : List PatP :=
  [wordPat "I think", wordPat "my opinion", wordPat "I believe"]

def instructionPats : List PatP :=
  [wordPat "please", wordPat "can you", wordPat "calculate", wordPat "add", wordPat "subtract",
   wordPat "show me", wordPat "give me", wordPat "explain"]

def requestPats : List PatP :=
  [wordPat "can you", wordPat "would you", wordPat "please", wordPat "I need", wordPat "I want"]

def emotionalPositivePats : List PatP :=
  [wordPat "I am happy", wordPat "I feel good", wordPat "I’m excited", wordPat "I am grateful"]

def emotionalNegativePats : List PatP :=
  [wordPat "I am sad", wordPat "I feel bad", wordPat "I’m angry", wordPat "I am tired",
   wordPat "I feel lonely", wordPat "I am depressed"]

def emotionalNeutralPats : List PatP :=
  [wordPat "I am okay", wordPat "I feel fine", wordPat "I’m alright"]

def emotionalStatePats : List PatP :=
  [wordPat "i am", wordPat "i feel", wordPat "I’m"]

def exclamationPats : List PatP := [exclPat]

def thanksPats : List PatP :=
  [wordPat "thank you", wordPat "thanks", wordPat "much appreciated"]

def apologyPats : List PatP :=
  [wordPat "sorry", wordPat "my apologies", wordPat "forgive me"]

def weatherPats : List PatP :=
  [wordPat "weather", wordPat "ris it raining", wordPat "sunny", wordPat "forecast"]

def timePats : List PatP :=
  [wordPat "time", wordPat "what time", wordPat "clock"]

/-- The ordered intent catalog (`DEFAULT_INTENTS`, a Python 3.7+ dict, which
preserves insertion order). -/
def DEFAULT_INTENTS : List (String × List PatP) :=
  [("greeting", greetingPats), ("goodbye", goodbyePats), ("help_request", helpRequestPats),
   ("question", questionPats), ("yes_no_question", yesNoQuestionPats),
   ("wh_question", whQuestionPats), ("choice_question", choiceQuestionPats),
   ("feedback", feedbackPats), ("opinion", opinionPats), ("instruction", instructionPats),
   ("request", requestPats), ("emotional_positive", emotionalPositivePats),
   ("emotional_negative", emotionalNegativePats), ("emotional_neutral", emotionalNeutralPats),
   ("emotional_state", emotionalStatePats), ("exclamation", exclamationPats),
   ("thanks", thanksPats), ("apology", apologyPats), ("weather", weatherPats),
   ("time", timePats)]

/-- `any(r.search(text) for r in regexes)` for one category. -/
def catHit (pats : List PatP) (t : List Char) : Bool :=
  pats.any fun p => p.m t

/-- `classify`, with the loop over `DEFAULT_INTENTS` unrolled in dict order
(first match wins). -/
def classifyL (t : List Char) : String :=
  if catHit greetingPats t then "greeting"
  else if catHit goodbyePats t then "goodbye"
  else if catHit helpRequestPats t then "help_request"
  else if catHit questionPats t then "question"
  else if catHit yesNoQuestionPats t then "yes_no_question"
  else if catHit whQuestionPats t then "wh_question"
  else if catHit choiceQuestionPats t then "choice_question"
  else if catHit feedbackPats t then "feedback"
  else if catHit opinionPats t then "opinion"
  else if catHit instructionPats t then "instruction"
  else if catHit requestPats t then "request"
  else if catHit emotionalPositivePats t then "emotional_positive"
  else if catHit emotionalNegativePats t then "emotional_negative"
  else if catHit emotionalNeutralPats t then "emotional_neutral"
  else if catHit emotionalStatePats t then "emotional_state"
  else if catHit exclamationPats t then "exclamation"
  else if catHit thanksPats t then "thanks"
  else if catHit apologyPats t then "apology"
  else if catHit weatherPats t then "weather"
  else if catHit timePats t then "time"
  else "unknown"

/-- `IntentClassifier.classify`. -/
def classify (text : String) : String :=
  if isBlank text then "unknown" else classifyL (pyLowerL text.data)

/-- Confidence for the first matching pattern of a category:
`1.0 if len(r.pattern) > 5 else 0.5`. -/
def catConf (pats : List PatP) (t : List Char) : ℚ :=
  match pats.find? (fun p => p.m t) with
  | some p => if p.raw.length > 5 then 1 else 1 / 2
  | none => 0

/-- `classify_with_confidence`, with the same unrolled loop: the first
matching pattern of the first matching category decides the confidence. -/
def cwcL (t : List Char) : String × ℚ :=
  if catHit greetingPats t then ("greeting", catConf greetingPats t)
  else if catHit goodbyePats t then ("goodbye", catConf goodbyePats t)
  else if catHit helpRequestPats t then ("help_request", catConf helpRequestPats t)
  else if catHit questionPats t then ("question", catConf questionPats t)
  else if catHit yesNoQuestionPats t then ("yes_no_question", catConf yesNoQuestionPats t)
  else if catHit whQuestionPats t then ("wh_question", catConf whQuestionPats t)
  else if catHit choiceQuestionPats t then ("choice_question", catConf choiceQuestionPats t)
  else if catHit feedbackPats t then ("feedback", catConf feedbackPats t)
  else if catHit opinionPats t then ("opinion", catConf opinionPats t)
  else if catHit instructionPats t then ("instruction", catConf instructionPats t)
  else if catHit requestPats t then ("request", catConf requestPats t)
  else if catHit emotionalPositivePats t then ("emotional_positive", catConf emotionalPositivePats t)
  else if catHit emotionalNegativePats t then ("emotional_negative", catConf emotionalNegativePats t)
  else if catHit emotionalNeutralPats t then ("emotional_neutral", catConf emotionalNeutralPats t)
  else if catHit emotionalStatePats t then ("emotional_state", catConf emotionalStatePats t)
  else if catHit exclamationPats t then ("exclamation", catConf exclamationPats t)
  else if catHit thanksPats t then ("thanks", catConf thanksPats t)
  else if catHit apologyPats t then ("apology", catConf apologyPats t)
  else if catHit weatherPats t then ("weather", catConf weatherPats t)
  else if catHit timePats t then ("time", catConf timePats t)
  else ("unknown", 0)

/-- `IntentClassifier.classify_with_confidence`. -/
def classify_with_confidence (text : String) : String × ℚ :=
  if isBlank text then ("unknown", 0) else cwcL (pyLowerL text.data)

/-- No category of the default catalog matches the (lowercased) text. -/
def noCategoryMatch (t : List Char) : Bool :=
  DEFAULT_INTENTS.all fun c => !catHit c.2 t

end IntentClassifier

example : IntentClassifier.classify "Hi there!" = "greeting" := by decide

example : IntentClassifier.classify "zzz" = "unknown" := by decide

example : IntentClassifier.classify "is it raining?" = "question" := by decide

example : IntentClassifier.classify_with_confidence "zzz" = ("unknown", 0) := by decide

-- ---------------------------------------------------------------------------
-- utils (src/utils.py)
-- ---------------------------------------------------------------------------

/-- `re.sub(r"\s+", " ", t)` step function: emit one space at the start of
each whitespace run (`prevSpace` tracks whether the previous character was
whitespace). -/
def collapseWsAux : List Char → Bool → List Char
  | [], _ => []
  | c :: rest, prevSpace =>
    if isPySpace c then
      if prevSpace then collapseWsAux rest true
      else ' ' :: collapseWsAux rest true
    else c :: collapseWsAux rest false

/-- `re.sub(r"\s+", " ", t)`: collapse every whitespace run to one space. -/
def collapseWs (l : List Char) : List Char :=
  collapseWsAux l false

/-- `utils.normalize_text`: strip, lowercase, collapse whitespace runs. -/
def normalize_text (l : List Char) : List Char :=
  collapseWs (pyLowerL (pyStrip l))

/-- Python `str.split()` with no separator: split on whitespace runs,
dropping empty pieces. -/
def pySplitWs (l : List Char) : List (List Char) :=
  (l.splitOnP isPySpace).filter (fun w => !w.isEmpty)

/-- ASCII model of Python `str.isupper`: at least one cased character, and
every cased character is uppercase. -/
def pyIsUpper (w : List Char) : Bool :=
  w.any (fun c => c.isAlpha) && w.all (fun c => !c.isAlpha || c.isUpper)

/-- `utils.is_question`. -/
def is_question (text : String) : Bool :=
  if text.data.isEmpty then false
  else
    let t := normalize_text text.data
    containsSub ['?'] t ||
      (["what", "why", "how", "when", "where", "who", "which", "do", "can", "is", "are"].any
        fun k => t.take k.data.length == k.data)

/-- `utils.contains_emphasis`. -/
def contains_emphasis (text : String) : Bool :=
  if text.data.isEmpty then false
  else
    containsSub ['!'] text.data ||
      (pySplitWs text.data).any fun w => pyIsUpper w && decide (w.length > 2)

-- ---------------------------------------------------------------------------
-- SubtextDetector (src/subtext_detector.py)
-- ---------------------------------------------------------------------------

namespace SubtextDetector

def HEDGING_CUES : List String :=
  ["maybe", "perhaps", "kind of", "sort of", "i guess", "i think", "probably",
   "possibly", "could be", "might", "seems like"]

def UNCERTAINTY_CUES : List String :=
  ["not sure", "unsure", "confused", "uncertain", "don’t know", "don\x27t know",
   "no idea", "lost", "unclear"]

def SARCASM_CUES : List String :=
  ["yeah right", "as if", "sure", "totally", "great", "amazing",
   "fantastic", "wonderful", "brilliant"]

def NEGATION_CUES : List String :=
  ["not", "never", "no", "none", "nothing", "cannot", "can\x27t", "won\x27t"]

def EMPHASIS_CUES : List String :=
  ["!", "all caps", "literally", "absolutely", "completely", "extremely"]

def POLITENESS_CUES : List String :=
  ["please", "thank you", "thanks", "appreciate", "grateful"]

def EXAGGERATION_CUES : List String :=
  ["always", "never", "everyone", "nobody", "forever", "completely", "totally"]

def cueHit (cues : List String) (t : List Char) : Bool :=
  cues.any fun c => containsSub c.data t

/-- The `tags` list built by `detect` before `list(set(tags))`, in append
order: hedging, uncertainty, possible sarcasm, the two emphasis checks,
politeness, exaggeration. -/
def tagsRaw (text : List Char) : List String :=
  let t := pyLowerL text
  (if cueHit HEDGING_CUES t then ["hedging"] else []) ++
  (if cueHit UNCERTAINTY_CUES t then ["uncertainty"] else []) ++
  (if cueHit SARCASM_CUES t && cueHit NEGATION_CUES t then ["possible_sarcasm"] else []) ++
  (if containsSub ['!'] text || containsSub "all caps".data t ||
      (pySplitWs text).any (fun w => pyIsUpper w && decide (w.length > 2))
   then ["emphasis"] else []) ++
  (if cueHit EMPHASIS_CUES t then ["emphasis"] else []) ++
  (if cueHit POLITENESS_CUES t then ["politeness"] else []) ++
  (if cueHit EXAGGERATION_CUES t then ["exaggeration"] else [])

/-- `SubtextDetector.detect`.  The final `list(set(tags))` materialises an
unordered hash set; `ord` is the set-materialisation order (any function
producing some duplicate-free reordering), passed explicitly because CPython
does not fix it across processes. -/
def detect (ord : List String → List String) (text : String) : List String :=
  if isBlank text then [] else ord (tagsRaw text.data)

end SubtextDetector

-- ---------------------------------------------------------------------------
-- schema.SubtextResult and SubtextInferencer (src/subtext_inferencer.py)
-- ---------------------------------------------------------------------------

/-- `schema.SubtextResult` dataclass. -/
structure SubtextResult where
  primary : Option String := none
  secondary : Option (List String) := none
  rationale : Option String := none
deriving Repr, DecidableEq

/-- The keyword-argument names accepted by the `SubtextResult` dataclass
constructor. -/
def SubtextResult.fieldNames : List String :=
  ["primary", "secondary", "rationale"]

namespace SubtextInferencer

def HELP_SEEKING : List String :=
  ["help", "need advice", "what should i do", "can you guide", "how do i", "assist me"]

def VALIDATION_SEEKING : List String :=
  ["does that make sense", "am i right", "is this correct", "do you think", "validate"]

def EMPATHY_SEEKING : List String :=
  ["i\x27m tired", "i am tired", "burned out", "overwhelmed", "stressed", "exhausted",
   "drained", "fatigued"]

def CLARIFICATION : List String :=
  ["i don\x27t understand", "i\x27m confused", "not clear", "clarify", "explain again", "unclear"]

def GRATITUDE : List String :=
  ["thanks", "thank you", "much appreciated", "grateful"]

def APOLOGETIC : List String :=
  ["sorry", "my apologies", "forgive me"]

def TOPIC_SHIFT : List String :=
  ["by the way", "btw", "speaking of", "changing topic"]

def cueHit (cues : List String) (t : List Char) : Bool :=
  cues.any fun c => containsSub c.data t

/-- The `signals` list built by `infer` before `list(set(signals))`, in
append order: keyword cues, emotion-based cues, intent-based cues, and the
final bare-exclamation emphasis (only when no excitement signal was
collected). -/
def rawSignals (text : List Char) (emotion intent : Option String) : List String :=
  let t := normalize_text text
  let base :=
    (if cueHit HELP_SEEKING t then ["seeking_help"] else []) ++
    (if cueHit VALIDATION_SEEKING t then ["seeking_validation"] else []) ++
    (if cueHit EMPATHY_SEEKING t then ["seeking_empathy"] else []) ++
    (if cueHit CLARIFICATION t then ["seeking_clarification"] else []) ++
    (if cueHit APOLOGETIC t then ["apologetic"] else []) ++
    (if cueHit GRATITUDE t then ["gratitude"] else []) ++
    (if cueHit TOPIC_SHIFT t then ["topic_shift"] else []) ++
    (if emotion == some "tired" || containsSub "exhausted".data t then ["seeking_empathy"] else []) ++
    (if emotion == some "joy" && containsSub ['!'] text then ["expressing_excitement"] else []) ++
    (if emotion == some "sadness" then ["seeking_support"] else []) ++
    (if intent == some "exclamation" then ["emphasis"] else []) ++
    (if intent == some "emotional_expression" &&
        (emotion == some "sadness" || emotion == some "anger") then ["venting"] else [])
  if containsSub ['!'] text && !(base.contains "expressing_excitement") then
    base ++ ["emphasis"]
  else base

/-- `SubtextInferencer.infer`.  The empty-input guard calls
`SubtextResult(primary=None, signals=[], confidence=0.0, rationale="Empty input")`;
`signals` and `confidence` are not fields of the dataclass, so CPython raises
TypeError on that path.  The non-empty path deduplicates through
`list(set(signals))`, whose order is the explicit `ord` parameter, and takes
`signals[0]` as primary. -/
def infer (ord : List String → List String) (text : String)
    (emotion intent : Option String) : Except String SubtextResult :=
  if isBlank text then
    if ["primary", "signals", "confidence", "rationale"].all
        (fun k => SubtextResult.fieldNames.contains k) then
      .ok { primary := none, secondary := some [], rationale := some "Empty input" }
    else
      .error "TypeError: unexpected keyword argument signals"
  else
    let signals := ord (rawSignals text.data emotion intent)
    .ok { primary := signals.head?, secondary := some signals,
          rationale := some "Heuristic pattern detection with emotion/intent cues" }

end SubtextInferencer

-- ---------------------------------------------------------------------------
-- ConversationStateMachine (src/conversation_state_machine.py)
-- ---------------------------------------------------------------------------

/-- The `metadata={"intent": intent, "subtext": subtext_primary}` dict. -/
structure TransMeta where
  intent : String
  subtext : Option String
deriving Repr, DecidableEq

/-- `conversation_state_machine.Transition` dataclass
(fields: previous, current, rationale, metadata). -/
structure Transition where
  previous : String
  current : String
  rationale : String
  metadata : Option TransMeta := none
deriving Repr, DecidableEq

namespace ConversationStateMachine

def VALID_STATES : List String :=
  ["IDLE", "GREETING", "REQUEST", "CLARIFICATION", "FOLLOWUP", "EMOTIONAL_SUPPORT", "CLOSING"]

/-- `ConversationStateMachine.transition`, as a pure function from the
current state: returns the Transition object and the new machine state. -/
def transition (intent : String) (subtext_primary : Option String) (state : String) :
    Transition × String :=
  let next :=
    if intent == "greeting" then "GREETING"
    else if ["question", "instruction", "math", "code", "request"].contains intent then
      (if subtext_primary == some "seeking_clarification" then "CLARIFICATION" else "REQUEST")
    else if ["correction", "narrative", "chit_chat", "feedback", "opinion"].contains intent then
      "FOLLOWUP"
    else if ["emotional_expression", "emotional_state", "emotional_positive",
             "emotional_negative"].contains intent then "EMOTIONAL_SUPPORT"
    else if ["closing", "goodbye"].contains intent then "CLOSING"
    else if state == "IDLE" then "FOLLOWUP"
    else state
  let rationale :=
    "Intent=" ++ intent ++
      (match subtext_primary with
       | some s => if s ≠ "" then "; Subtext=" ++ s else ""
       | none => "")
  (⟨state, next, rationale, some ⟨intent, subtext_primary⟩⟩, next)

end ConversationStateMachine

-- ---------------------------------------------------------------------------
-- state_manager (src/state_manager.py) and memory_store (src/memory_store.py)
-- ---------------------------------------------------------------------------

/-- `state_manager.Turn` dataclass (metadata values modelled as strings,
timestamps as exact rationals). -/
structure Turn where
  user_text : String
  intent : String
  emotion : String
  subtext_tags : List String
  assistant_text : Option String := none
  state : Option String := none
  timestamp : Rat := 0
  meta : List (String × String) := []
deriving Repr, DecidableEq

/-- `state_manager.ConversationState` dataclass. -/
structure ConversationState where
  turns : List Turn := []
  last_intent : Option String := none
  last_emotion : Option String := none
  current_state : String := "IDLE"
  meta : List (String × String) := []
deriving Repr, DecidableEq

namespace StateManager

/-- `StateManager.append_turn`: push the turn and update the derived
last-intent/last-emotion fields (nothing else). -/
def append_turn (s : ConversationState) (t : Turn) : ConversationState :=
  { s with turns := s.turns ++ [t],
           last_intent := some t.intent,
           last_emotion := some t.emotion }

end StateManager

/-- Python list slice `l[-n:]` (for `n = 0` this is `l[0:]`, the whole
list). -/
def sliceLast (n : Nat) (l : List α) : List α :=
  if n = 0 then l else l.drop (l.length - n)

/-- `StateManager.prune_turns`: unchanged below the cap; `"oldest"` keeps the
most recent `max_turns` via `turns[-max_turns:]`; `"newest"` keeps the
earliest via `turns[:max_turns]`; any other strategy raises ValueError. -/
def StateManager.prune_turns (turns : List Turn) (max_turns : Nat) (strategy : String) :
    Except String (List Turn) :=
  if turns.length ≤ max_turns then .ok turns
  else if strategy == "oldest" then .ok (sliceLast max_turns turns)
  else if strategy == "newest" then .ok (turns.take max_turns)
  else .error ("Unknown prune strategy: " ++ strategy)

/-- `MemoryStore.prune`: same slicing, but an unknown strategy only prints
`"Unknown prune strategy: ..."` and returns with the messages unchanged. -/
def MemoryStore.prune (messages : List α) (max_messages : Nat) (strategy : String) : List α :=
  if messages.length ≤ max_messages then messages
  else if strategy == "oldest" then sliceLast max_messages messages
  else if strategy == "newest" then messages.take max_messages
  else messages

-- ---------------------------------------------------------------------------
-- Summarizer (src/summarizer.py)
-- ---------------------------------------------------------------------------

/-- `summarizer.SummaryConfig` dataclass with its defaults. -/
structure SummaryConfig where
  max_turns : Nat := 12
  include_emotions : Bool := true
  include_intents : Bool := true
  include_subtext : Bool := true
  include_assistant : Bool := false
  include_timestamps : Bool := false
  include_meta : Bool := false
  bullet_style : String := "-"
  style : String := "bullet"
  heading : String := "Conversation summary"
  show_indices : Bool := true
  show_empty_subtext_as_none : Bool := true
  max_text_length : Int := 200
  truncate_ellipsis : String := "…"
  show_insights : Bool := true
  omit_neutral_prevailing : Bool := false
  compute_question_ratio : Bool := true
  compute_emphasis_count : Bool := true
  compute_subtext_density : Bool := true
  compute_intent_distribution : Bool := true
deriving Repr, DecidableEq

namespace Summarizer

/-- `Summarizer._truncate`: cut to `max(10, max_text_length)` code points,
right-strip, and append the ellipsis marker. -/
def truncate (cfg : SummaryConfig) (s : String) : String :=
  let maxLen : Int := max 10 cfg.max_text_length
  if (s.data.length : Int) ≤ maxLen then s
  else String.mk (pyRstrip (s.data.take maxLen.toNat)) ++ cfg.truncate_ellipsis

/-- `Summarizer._fmt_user_text`. -/
def fmt_user_text (cfg : SummaryConfig) (t : Turn) : String :=
  truncate cfg (String.mk (pyStrip t.user_text.data))

/-- Insertion of one key/value pair into a key-sorted association list
(ascending), used to model `sorted(meta.keys())`. -/
def insertByKey (p : String × String) : List (String × String) → List (String × String)
  | [] => [p]
  | q :: rest => if p.1 < q.1 then p :: q :: rest else q :: insertByKey p rest

/-- `Summarizer._fmt_meta`: compact `k=v` pairs over sorted keys. -/
def fmt_meta (meta : List (String × String)) : String :=
  let sortedMeta := meta.foldl (fun acc p => insertByKey p acc) []
  "\x7b " ++ String.intercalate ", " (sortedMeta.map fun p => p.1 ++ "=" ++ p.2) ++ " \x7d"

/-- `Summarizer._most_common`: the count dict is built in first-seen order
and Python `max` returns the first key attaining the maximal count.  (Python
raises on an empty list; every call site guards non-emptiness, and the empty
case here returns a dummy value.) -/
def first_seen (items : List String) : List String :=
  items.foldl (fun acc it => if acc.contains it then acc else acc ++ [it]) []

def most_common (items : List String) : String :=
  match first_seen items with
  | [] => ""
  | k :: ks => ks.foldl (fun best k2 => if items.count k2 > items.count best then k2 else best) k

/-- Stable-descending insertion by count, modelling
`sorted(dist.items(), key=lambda kv: kv[1], reverse=True)` (Python sorted is
stable, so equal counts keep first-seen order). -/
def insertDescByCount (p : String × Nat) : List (String × Nat) → List (String × Nat)
  | [] => [p]
  | q :: rest => if p.2 > q.2 then p :: q :: rest else q :: insertDescByCount p rest

/-- `Summarizer._distribution` followed by the top-3 selection of
`_extract_insights`. -/
def distributionTop3 (items : List String) : List (String × Nat) :=
  let dist := (first_seen items).map fun k => (k, items.count k)
  (dist.foldl (fun acc p => insertDescByCount p acc) []).take 3

/-- `Summarizer._extract_insights` over the visible window. -/
def extract_insights (cfg : SummaryConfig) (recent : List Turn) : List String :=
  let intents := (recent.map fun t => t.intent).filter fun i => i ≠ ""
  let insights1 :=
    if intents ≠ [] then
      ["Dominant intent appears to be \x27" ++ most_common intents ++ "\x27."]
    else []
  let emotions := recent.map fun t => if t.emotion = "" then "neutral" else t.emotion
  let insights2 :=
    if emotions ≠ [] then
      let common_emotion := most_common emotions
      let all_neutral := emotions.all fun e => e == "neutral"
      if !cfg.omit_neutral_prevailing || all_neutral || common_emotion ≠ "neutral" then
        ["Prevailing emotion is \x27" ++ common_emotion ++ "\x27."]
      else []
    else []
  let insights3 :=
    if cfg.compute_subtext_density then
      let tag_count := (recent.map fun t => t.subtext_tags.length).sum
      let turns_with_subtext := (recent.filter fun t => t.subtext_tags ≠ []).length
      if tag_count > 0 then
        ["Subtext cues present in " ++ toString turns_with_subtext ++ "/" ++
          toString recent.length ++ " turns."]
      else []
    else []
  let insights4 :=
    if cfg.compute_question_ratio then
      let questions := (recent.filter fun t => is_question t.user_text).length
      if questions > 0 then
        ["Questions comprise " ++ toString questions ++ "/" ++
          toString recent.length ++ " turns."]
      else []
    else []
  let insights5 :=
    if cfg.compute_emphasis_count then
      let emph := (recent.filter fun t => contains_emphasis t.user_text).length
      if emph > 0 then
        ["Emphasis markers detected in " ++ toString emph ++ "/" ++
          toString recent.length ++ " turns."]
      else []
    else []
  let insights6 :=
    if cfg.compute_intent_distribution && intents ≠ [] then
      let items := String.intercalate ", "
        ((distributionTop3 intents).map fun p => p.1 ++ ": " ++ toString p.2)
      ["Top intents distribution → " ++ items ++ "."]
    else []
  insights1 ++ insights2 ++ insights3 ++ insights4 ++ insights5 ++ insights6

/-- 1-based enumeration, modelling `enumerate(recent, 1)`. -/
def enum1 (l : List α) : List (Nat × α) :=
  (List.range' 1 l.length).zip l

/-- `Summarizer._summarize_bullet` (the `datetime` rendering of timestamps is
the abstract library parameter `fmtDate`). -/
def style_bullet (fmtDate : Rat → String) (cfg : SummaryConfig) (recent : List Turn) : String :=
  let turnLines := (enum1 recent).map fun it =>
    let i := it.1
    let t := it.2
    let index := if cfg.show_indices then " Turn " ++ toString i ++ ":" else ""
    let parts := [cfg.bullet_style ++ index ++ " " ++ fmt_user_text cfg t]
      ++ (if cfg.include_assistant && (t.assistant_text.getD "") ≠ "" then
            ["(Assistant: " ++ truncate cfg (t.assistant_text.getD "") ++ ")"] else [])
      ++ (if cfg.include_intents && t.intent ≠ "" then ["(Intent: " ++ t.intent ++ ")"] else [])
      ++ (if cfg.include_emotions then
            ["(Emotion: " ++ (if t.emotion = "" then "neutral" else t.emotion) ++ ")"] else [])
      ++ (if cfg.include_subtext then
            (let tag_str := if t.subtext_tags ≠ [] then String.intercalate ", " t.subtext_tags
              else (if cfg.show_empty_subtext_as_none then "none" else "")
             if tag_str ≠ "" then ["(Subtext: " ++ tag_str ++ ")"] else [])
          else [])
      ++ (if cfg.include_timestamps && t.timestamp ≠ 0 then
            ["(Time: " ++ fmtDate t.timestamp ++ ")"] else [])
      ++ (if cfg.include_meta && t.meta ≠ [] then ["(Meta: " ++ fmt_meta t.meta ++ ")"] else [])
    String.intercalate " " parts
  let lines := [cfg.heading ++ ":"] ++ turnLines
  let insights := if cfg.show_insights then extract_insights cfg recent else []
  let lines2 :=
    if insights ≠ [] then
      lines ++ ["", "Key insights:"] ++ insights.map fun k => cfg.bullet_style ++ " " ++ k
    else lines
  String.intercalate "\n" lines2

/-- `Summarizer._summarize_narrative` (the narrative style renders no
timestamps, so the library parameter is unused here). -/
def style_narrative (_fmtDate : Rat → String) (cfg : SummaryConfig) (recent : List Turn) : String :=
  let turnLines := (enum1 recent).map fun it =>
    let i := it.1
    let t := it.2
    let sentence := ["Turn " ++ toString i ++ ": The user said “" ++ fmt_user_text cfg t ++ "”."]
      ++ (if cfg.include_intents && t.intent ≠ "" then
            ["The intent was " ++ t.intent ++ "."] else [])
      ++ (if cfg.include_emotions then
            ["The emotion was " ++ (if t.emotion = "" then "neutral" else t.emotion) ++ "."]
          else [])
      ++ (if cfg.include_subtext then
            (if t.subtext_tags ≠ [] then
              ["Subtext cues: " ++ String.intercalate ", " t.subtext_tags ++ "."]
             else if cfg.show_empty_subtext_as_none then ["No subtext detected."] else [])
          else [])
      ++ (if cfg.include_assistant && (t.assistant_text.getD "") ≠ "" then
            ["The assistant replied: “" ++ truncate cfg (t.assistant_text.getD "") ++ "”."]
          else [])
    String.intercalate " " sentence
  let lines := [cfg.heading ++ " (narrative):"] ++ turnLines
  let insights := if cfg.show_insights then extract_insights cfg recent else []
  let lines2 :=
    if insights ≠ [] then
      lines ++ ["Overall insights:"] ++ insights.map fun k => cfg.bullet_style ++ " " ++ k
    else lines
  String.intercalate "\n" lines2

/-- One entry of the `data["turns"]` list of `_summarize_json`; a field is
`none` when the corresponding key is not inserted. -/
structure TurnData where
  index : Nat
  user_text : String
  assistant_text : Option String := none
  intent : Option String := none
  emotion : Option String := none
  subtext_tags : Option (List String) := none
  timestamp : Option String := none
  meta : Option (List (String × String)) := none
deriving Repr, DecidableEq

/-- The `data` dict serialised by `_summarize_json`. -/
structure SummaryData where
  heading : String
  config : SummaryConfig
  turns : List TurnData
  insights : List String
deriving Repr, DecidableEq

/-- `Summarizer._summarize_json` (the `json.dumps` library call is the
abstract parameter `dumps`). -/
def style_json (fmtDate : Rat → String) (dumps : SummaryData → String)
    (cfg : SummaryConfig) (recent : List Turn) : String :=
  dumps
    { heading := cfg.heading
      config := cfg
      insights := if cfg.show_insights then extract_insights cfg recent else []
      turns := (enum1 recent).map fun it =>
        let i := it.1
        let t := it.2
        { index := i
          user_text := fmt_user_text cfg t
          assistant_text :=
            if cfg.include_assistant && (t.assistant_text.getD "") ≠ "" then
              some (truncate cfg (t.assistant_text.getD "")) else none
          intent := if cfg.include_intents && t.intent ≠ "" then some t.intent else none
          emotion :=
            if cfg.include_emotions then
              some (if t.emotion = "" then "neutral" else t.emotion) else none
          subtext_tags := if cfg.include_subtext then some t.subtext_tags else none
          timestamp :=
            if cfg.include_timestamps && t.timestamp ≠ 0 then
              some (fmtDate t.timestamp) else none
          meta := if cfg.include_meta && t.meta ≠ [] then some t.meta else none } }

/-- `Summarizer._summarize_markdown`. -/
def style_markdown (fmtDate : Rat → String) (cfg : SummaryConfig) (recent : List Turn) : String :=
  let cols := ["Turn", "User"]
    ++ (if cfg.include_intents then ["Intent"] else [])
    ++ (if cfg.include_emotions then ["Emotion"] else [])
    ++ (if cfg.include_subtext then ["Subtext"] else [])
    ++ (if cfg.include_assistant then ["Assistant"] else [])
    ++ (if cfg.include_timestamps then ["Time"] else [])
  let header := ["# " ++ cfg.heading, "",
    "|" ++ String.intercalate "|" cols ++ "|",
    "|" ++ String.intercalate "|" (cols.map fun _ => "---") ++ "|"]
  let rows := (enum1 recent).map fun it =>
    let i := it.1
    let t := it.2
    let row := [toString i, fmt_user_text cfg t]
      ++ (if cfg.include_intents then [t.intent] else [])
      ++ (if cfg.include_emotions then
            [if t.emotion = "" then "neutral" else t.emotion] else [])
      ++ (if cfg.include_subtext then
            [if t.subtext_tags ≠ [] then String.intercalate ", " t.subtext_tags
             else (if cfg.show_empty_subtext_as_none then "none" else "")] else [])
      ++ (if cfg.include_assistant then [truncate cfg (t.assistant_text.getD "")] else [])
      ++ (if cfg.include_timestamps then [fmtDate t.timestamp] else [])
    "|" ++ String.intercalate "|" row ++ "|"
  let lines := header ++ rows
  let lines2 :=
    if cfg.show_insights then
      lines ++ ["", "## Key insights"] ++ (extract_insights cfg recent).map fun k => "- " ++ k
    else lines
  String.intercalate "\n" lines2

/-- Lowercasing on `String`. -/
def pyLowerS (s : String) : String :=
  String.mk (pyLowerL s.data)

/-- `Summarizer.summarize`: the empty-history marker, the
`turns[-max_turns:]` window, and the style dispatch with bullet fallback. -/
def summarize (fmtDate : Rat → String) (dumps : SummaryData → String)
    (cfg : SummaryConfig) (turns : List Turn) : String :=
  if turns = [] then "No conversation yet."
  else
    let recent := sliceLast cfg.max_turns turns
    let style := if cfg.style = "" then "bullet" else pyLowerS cfg.style
    if style = "bullet" then style_bullet fmtDate cfg recent
    else if style = "narrative" then style_narrative fmtDate cfg recent
    else if style = "json" then style_json fmtDate dumps cfg recent
    else if style = "markdown" then style_markdown fmtDate cfg recent
    else style_bullet fmtDate cfg recent

end Summarizer

example :
    Summarizer.summarize (fun _ => "") (fun _ => "") {} [] = "No conversation yet." := by
  decide

-- ---------------------------------------------------------------------------
-- ChainBuilder (src/chain_builder.py) with schema.InferenceInput/Output
-- ---------------------------------------------------------------------------

/-- `schema.InferenceInput` (the `context`/`metadata` fields are unused by
`process_turn` and omitted). -/
structure InferenceInput where
  text : Option String := none
deriving Repr, DecidableEq

/-- The `raw` diagnostic dict assembled by `ChainBuilder.process_turn`. -/
structure RawDiag where
  state : String
  transitionInfo : Transition
  turn_count : Nat
  last_turn : Turn
deriving Repr, DecidableEq

/-- `schema.InferenceOutput`. -/
structure InferenceOutput where
  intent : String
  emotion : String
  subtext_tags : List String
  summary : Option String := none
  raw : Option RawDiag := none
deriving Repr, DecidableEq

/-- The mutable state owned by a `ChainBuilder` instance: its turn history
and the state of its `ConversationStateMachine`. -/
structure BuilderState where
  turns : List Turn := []
  fsmState : String := "IDLE"
deriving Repr, DecidableEq

namespace ChainBuilder

/-- `ChainBuilder.process_turn`, parameterised over the five stages so that
each `try/except` arm is explicit: a stage is a function into
`Except String _`, and `.error` models the stage raising.  The intent,
emotion and subtext handlers substitute the documented defaults and the
summarizer handler substitutes an empty summary.  The state-machine handler,
however, executes `Transition(previous="unknown", current="unknown",
trigger=None)`; `trigger` is not a field of the `Transition` dataclass (and
`rationale` is a required one), so that handler itself raises TypeError and
`process_turn` propagates it.  `now` models `time.time()` at `Turn`
creation. -/
def process_turn
    (intentF : String → Except String String)
    (emotionF : String → Except String String)
    (subtextF : String → Except String (List String))
    (fsmF : String → Option String → String → Except String (Transition × String))
    (summF : List Turn → Except String String)
    (bs : BuilderState) (inp : InferenceInput) (assistant_text : Option String)
    (now : Rat) : Except String (InferenceOutput × BuilderState) :=
  let text := inp.text.getD ""
  let intent := match intentF text with
    | .ok i => i
    | .error _ => "unknown"
  let emotion := match emotionF text with
    | .ok e => e
    | .error _ => "neutral"
  let subtext_tags := match subtextF text with
    | .ok tg => tg
    | .error _ => []
  match fsmF intent subtext_tags.head? bs.fsmState with
  | .error _ => .error "TypeError: unexpected keyword argument trigger"
  | .ok (tr, newState) =>
    let state := tr.current
    let turn : Turn :=
      { user_text := text, assistant_text := assistant_text, intent := intent,
        emotion := emotion, subtext_tags := subtext_tags, state := some state,
        timestamp := now }
    let turns2 := bs.turns ++ [turn]
    let summary := match summF turns2 with
      | .ok s => s
      | .error _ => ""
    .ok ({ intent := intent, emotion := emotion, subtext_tags := subtext_tags,
           summary := some summary,
           raw := some { state := state, transitionInfo := tr,
                         turn_count := turns2.length, last_turn := turn } },
         { turns := turns2, fsmState := newState })

/-- The concrete stages wired by `ChainBuilder.__init__`; none of them raises
on any input. -/
def realIntent : String → Except String String :=
  fun t => .ok (IntentClassifier.classify t)

def realEmotion : String → Except String String :=
  fun t => .ok (EmotionClassifier.classify t)

def realSubtext (ord : List String → List String) : String → Except String (List String) :=
  fun t => .ok (SubtextDetector.detect ord t)

def realFsm : String → Option String → String → Except String (Transition × String) :=
  fun intent sub st => .ok (ConversationStateMachine.transition intent sub st)

def realSumm (fmtDate : Rat → String) (dumps : Summarizer.SummaryData → String) :
    List Turn → Except String String :=
  fun ts => .ok (Summarizer.summarize fmtDate dumps {} ts)

end ChainBuilder

-- ---------------------------------------------------------------------------
-- Helper lemmas
-- ---------------------------------------------------------------------------

lemma le_maxOf {l : List Nat} {a : Nat} (h : a ∈ l) : a ≤ EmotionClassifier.maxOf l := by
  induction l with
  | nil => cases h
  | cons x xs ih =>
    rcases List.mem_cons.mp h with h | h
    · subst h; exact Nat.le_max_left _ _
    · exact le_trans (ih h) (Nat.le_max_right _ _)

lemma maxOf_mem {l : List Nat} (h : l ≠ []) : EmotionClassifier.maxOf l ∈ l := by
  induction l with
  | nil => exact absurd rfl h
  | cons x xs ih =>
    by_cases hx : xs = []
    · subst hx
      simp [EmotionClassifier.maxOf]
    · have hm := ih hx
      show max x (EmotionClassifier.maxOf xs) ∈ x :: xs
      rcases Nat.le_total (EmotionClassifier.maxOf xs) x with hle | hle
      · rw [Nat.max_eq_left hle]; exact List.mem_cons_self _ _
      · rw [Nat.max_eq_right hle]; exact List.mem_cons_of_mem _ hm

lemma find?_first {p : String → Bool} {l : List String} {a : String}
    (h : l.find? p = some a) :
    p a = true ∧ ∀ b ∈ l, p b = true → l.indexOf a ≤ l.indexOf b := by
  induction l with
  | nil => cases h
  | cons x xs ih =>
    by_cases hx : p x = true
    · rw [List.find?_cons_of_pos _ hx] at h
      have hax : x = a := by injection h
      subst hax
      exact ⟨hx, fun b _ _ => by simp [List.indexOf_cons_self]⟩
    · rw [List.find?_cons_of_neg _ (by simpa using hx)] at h
      obtain ⟨hpa, hmin⟩ := ih h
      refine ⟨hpa, fun b hb hpb => ?_⟩
      have hax : a ≠ x := fun he => hx (he ▸ hpa)
      have hbx : b ≠ x := fun he => hx (he ▸ hpb)
      rcases List.mem_cons.mp hb with hb | hb
      · exact absurd hb hbx
      · rw [List.indexOf_cons_ne _ (fun he => hax he.symm),
          List.indexOf_cons_ne _ (fun he => hbx he.symm)]
        exact Nat.succ_le_succ (hmin b hb hpb)

lemma anchored_imp_searchQEnd {kws : List String} {l : List Char}
    (h : anchoredKwQ kws l = true) : searchQEnd l = true := by
  unfold anchoredKwQ at h
  simp only [List.any_eq_true] at h
  obtain ⟨k, -, hk⟩ := h
  split at hk
  · simp only [Bool.and_eq_true, beq_iff_eq] at hk
    obtain ⟨⟨htake, -⟩, hq⟩ := hk
    have hlen : k.data.length ≤ l.length := by
      have h1 := congrArg List.length htake
      rw [List.length_take] at h1
      omega
    unfold searchQEnd
    rw [List.any_eq_true]
    exact ⟨k.data.length, by rw [List.mem_range]; omega, hq⟩
  · exact absurd hk (by simp)

lemma yesno_catHit_imp (t : List Char)
    (h : IntentClassifier.catHit IntentClassifier.yesNoQuestionPats t = true) :
    IntentClassifier.catHit IntentClassifier.questionPats t = true := by
  simp only [IntentClassifier.catHit, IntentClassifier.yesNoQuestionPats, yesnoPat,
    List.any_cons, List.any_nil, Bool.or_false] at h
  simp only [IntentClassifier.catHit, IntentClassifier.questionPats, qendPat,
    List.any_cons, List.any_nil, Bool.or_false]
  exact anchored_imp_searchQEnd h

lemma wh_catHit_imp (t : List Char)
    (h : IntentClassifier.catHit IntentClassifier.whQuestionPats t = true) :
    IntentClassifier.catHit IntentClassifier.questionPats t = true := by
  simp only [IntentClassifier.catHit, IntentClassifier.whQuestionPats, whPat,
    List.any_cons, List.any_nil, Bool.or_false] at h
  simp only [IntentClassifier.catHit, IntentClassifier.questionPats, qendPat,
    List.any_cons, List.any_nil, Bool.or_false]
  exact anchored_imp_searchQEnd h

set_option maxHeartbeats 1000000 in
lemma classifyL_ne_questions (t : List Char) :
    IntentClassifier.classifyL t ≠ "yes_no_question" ∧
    IntentClassifier.classifyL t ≠ "wh_question" := by
  unfold IntentClassifier.classifyL
  by_cases h1 : IntentClassifier.catHit IntentClassifier.greetingPats t = true
  · rw [if_pos h1]; exact ⟨by decide, by decide⟩
  · rw [if_neg h1]
    by_cases h2 : IntentClassifier.catHit IntentClassifier.goodbyePats t = true
    · rw [if_pos h2]; exact ⟨by decide, by decide⟩
    · rw [if_neg h2]
      by_cases h3 : IntentClassifier.catHit IntentClassifier.helpRequestPats t = true
      · rw [if_pos h3]; exact ⟨by decide, by decide⟩
      · rw [if_neg h3]
        by_cases h4 : IntentClassifier.catHit IntentClassifier.questionPats t = true
        · rw [if_pos h4]; exact ⟨by decide, by decide⟩
        · rw [if_neg h4]
          by_cases h5 : IntentClassifier.catHit IntentClassifier.yesNoQuestionPats t = true
          · exact absurd (yesno_catHit_imp t h5) h4
          · rw [if_neg h5]
            by_cases h6 : IntentClassifier.catHit IntentClassifier.whQuestionPats t = true
            · exact absurd (wh_catHit_imp t h6) h4
            · rw [if_neg h6]
              by_cases h7 : IntentClassifier.catHit IntentClassifier.choiceQuestionPats t = true
              · rw [if_pos h7]; exact ⟨by decide, by decide⟩
              · rw [if_neg h7]
                by_cases h8 : IntentClassifier.catHit IntentClassifier.feedbackPats t = true
                · rw [if_pos h8]; exact ⟨by decide, by decide⟩
                · rw [if_neg h8]
                  by_cases h9 : IntentClassifier.catHit IntentClassifier.opinionPats t = true
                  · rw [if_pos h9]; exact ⟨by decide, by decide⟩
                  · rw [if_neg h9]
                    by_cases h10 : IntentClassifier.catHit IntentClassifier.instructionPats t = true
                    · rw [if_pos h10]; exact ⟨by decide, by decide⟩
                    · rw [if_neg h10]
                      by_cases h11 : IntentClassifier.catHit IntentClassifier.requestPats t = true
                      · rw [if_pos h11]; exact ⟨by decide, by decide⟩
                      · rw [if_neg h11]
                        by_cases h12 : IntentClassifier.catHit IntentClassifier.emotionalPositivePats t = true
                        · rw [if_pos h12]; exact ⟨by decide, by decide⟩
                        · rw [if_neg h12]
                          by_cases h13 : IntentClassifier.catHit IntentClassifier.emotionalNegativePats t = true
                          · rw [if_pos h13]; exact ⟨by decide, by decide⟩
                          · rw [if_neg h13]
                            by_cases h14 : IntentClassifier.catHit IntentClassifier.emotionalNeutralPats t = true
                            · rw [if_pos h14]; exact ⟨by decide, by decide⟩
                            · rw [if_neg h14]
                              by_cases h15 : IntentClassifier.catHit IntentClassifier.emotionalStatePats t = true
                              · rw [if_pos h15]; exact ⟨by decide, by decide⟩
                              · rw [if_neg h15]
                                by_cases h16 : IntentClassifier.catHit IntentClassifier.exclamationPats t = true
                                · rw [if_pos h16]; exact ⟨by decide, by decide⟩
                                · rw [if_neg h16]
                                  by_cases h17 : IntentClassifier.catHit IntentClassifier.thanksPats t = true
                                  · rw [if_pos h17]; exact ⟨by decide, by decide⟩
                                  · rw [if_neg h17]
                                    by_cases h18 : IntentClassifier.catHit IntentClassifier.apologyPats t = true
                                    · rw [if_pos h18]; exact ⟨by decide, by decide⟩
                                    · rw [if_neg h18]
                                      by_cases h19 : IntentClassifier.catHit IntentClassifier.weatherPats t = true
                                      · rw [if_pos h19]; exact ⟨by decide, by decide⟩
                                      · rw [if_neg h19]
                                        by_cases h20 : IntentClassifier.catHit IntentClassifier.timePats t = true
                                        · rw [if_pos h20]; exact ⟨by decide, by decide⟩
                                        · rw [if_neg h20]
                                          exact ⟨by decide, by decide⟩

-- ---------------------------------------------------------------------------
-- Claim theorems
-- ---------------------------------------------------------------------------

/-- C10: with the default category patterns, `IntentClassifier.classify`
never returns the labels `yes_no_question` or `wh_question` for any input
string: their patterns are anchored variants of ending in `?`, so any text
they match also matches the earlier `question` pattern `.*\?$`, and matching
is first-match-wins in declared category order, making those two catalog
entries unreachable outputs. -/
theorem C10_yes_no_wh_unreachable (s : String) :
    IntentClassifier.classify s ≠ "yes_no_question" ∧
    IntentClassifier.classify s ≠ "wh_question" := by
  unfold IntentClassifier.classify
  by_cases hb : isBlank s = true
  · rw [if_pos hb]
    exact ⟨by decide, by decide⟩
  · rw [if_neg hb]
    exact classifyL_ne_questions (pyLowerL s.data)

/-- C6: whenever the intent is one of question/instruction/math/code/request,
`ConversationStateMachine.transition` moves to CLARIFICATION exactly when the
primary subtext equals `seeking_clarification` and to REQUEST otherwise, and
the returned Transition records the previous phase and that next phase. -/
theorem C6_request_clarification (st intent : String) (sub : Option String)
    (h : intent ∈ ["question", "instruction", "math", "code", "request"]) :
    (ConversationStateMachine.transition intent sub st).1.previous = st ∧
    (ConversationStateMachine.transition intent sub st).1.current =
      (if sub = some "seeking_clarification" then "CLARIFICATION" else "REQUEST") ∧
    (ConversationStateMachine.transition intent sub st).2 =
      (ConversationStateMachine.transition intent sub st).1.current := by
  fin_cases h <;>
  · by_cases hs : sub = some "seeking_clarification" <;>
      simp [ConversationStateMachine.transition, hs]

/-- Witness for C6 at a concrete input. -/
theorem C6_request_clarification_witness :
    ("question" ∈ ["question", "instruction", "math", "code", "request"]) ∧
    ((ConversationStateMachine.transition "question" (some "seeking_clarification") "IDLE").1.previous = "IDLE" ∧
     (ConversationStateMachine.transition "question" (some "seeking_clarification") "IDLE").1.current =
       (if (some "seeking_clarification" : Option String) = some "seeking_clarification"
        then "CLARIFICATION" else "REQUEST") ∧
     (ConversationStateMachine.transition "question" (some "seeking_clarification") "IDLE").2 =
       (ConversationStateMachine.transition "question" (some "seeking_clarification") "IDLE").1.current) :=
  ⟨by decide,
   C6_request_clarification "IDLE" "question" (some "seeking_clarification") (by decide)⟩

/-- C7 counterexample: the claim says any non-oldest/newest strategy is a
configuration error reported without throwing and that `max ≤ n` always keeps
exactly `max` turns, but `StateManager.prune_turns` raises ValueError on an
unknown strategy once the history exceeds the cap, and `turns[-0:]` keeps the
whole history for `max = 0`. -/
theorem C7_prune_counterexample :
    StateManager.prune_turns
        [{ user_text := "a", intent := "x", emotion := "y", subtext_tags := [] },
         { user_text := "b", intent := "x", emotion := "y", subtext_tags := [] }]
        1 "alphabetical" = .error "Unknown prune strategy: alphabetical" ∧
    StateManager.prune_turns
        [{ user_text := "a", intent := "x", emotion := "y", subtext_tags := [] },
         { user_text := "b", intent := "x", emotion := "y", subtext_tags := [] }]
        0 "oldest" =
      .ok [{ user_text := "a", intent := "x", emotion := "y", subtext_tags := [] },
           { user_text := "b", intent := "x", emotion := "y", subtext_tags := [] }] :=
  ⟨rfl, rfl⟩

/-- C7 (amended): for `1 ≤ max ≤ n`, pruning the turn history with strategy
`oldest` keeps exactly the `max` most recent turns in original relative order
and `newest` keeps exactly the `max` earliest turns; for any other strategy
value `StateManager.prune_turns` raises ValueError whenever the history
exceeds `max` (and does nothing otherwise), while `MemoryStore.prune` is the
operation that reports the configuration error without throwing and leaves
the store unchanged. -/
theorem C7_prune_amended {α : Type} (turns : List Turn) (msgs : List α)
    (m : Nat) (strat : String) (hm : 1 ≤ m) (hle : m ≤ turns.length) :
    (StateManager.prune_turns turns m "oldest" =
      .ok (turns.drop (turns.length - m)) ∧
     StateManager.prune_turns turns m "newest" = .ok (turns.take m)) ∧
    (strat ≠ "oldest" → strat ≠ "newest" → m < turns.length →
      StateManager.prune_turns turns m strat =
        .error ("Unknown prune strategy: " ++ strat)) ∧
    (strat ≠ "oldest" → strat ≠ "newest" → MemoryStore.prune msgs m strat = msgs) := by
  refine ⟨⟨?_, ?_⟩, ?_, ?_⟩
  · unfold StateManager.prune_turns
    by_cases hcap : turns.length ≤ m
    · rw [if_pos hcap]
      have : turns.length - m = 0 := by omega
      rw [this, List.drop_zero]
    · rw [if_neg hcap]
      have hbeq : (("oldest" : String) == "oldest") = true := by decide
      rw [if_pos hbeq]
      unfold sliceLast
      rw [if_neg (by omega)]
  · unfold StateManager.prune_turns
    by_cases hcap : turns.length ≤ m
    · rw [if_pos hcap]
      have hml : m = turns.length := by omega
      rw [hml, List.take_length]
    · rw [if_neg hcap]
      rw [if_neg (by decide : ¬ (("newest" : String) == "oldest") = true)]
      rw [if_pos (by decide : (("newest" : String) == "newest") = true)]
  · intro h1 h2 h3
    unfold StateManager.prune_turns
    rw [if_neg (by omega)]
    rw [if_neg (by simpa using h1), if_neg (by simpa using h2)]
  · intro h1 h2
    unfold MemoryStore.prune
    by_cases hcap : msgs.length ≤ m
    · rw [if_pos hcap]
    · rw [if_neg hcap]
      rw [if_neg (by simpa using h1), if_neg (by simpa using h2)]

/-- Witness for C7 (amended) at a concrete history and strategy. -/
theorem C7_prune_amended_witness :
    (1 : Nat) ≤ 1 ∧
    1 ≤ [({ user_text := "a", intent := "x", emotion := "y", subtext_tags := [] } : Turn),
         { user_text := "b", intent := "x", emotion := "y", subtext_tags := [] }].length ∧
    ((StateManager.prune_turns
        [{ user_text := "a", intent := "x", emotion := "y", subtext_tags := [] },
         { user_text := "b", intent := "x", emotion := "y", subtext_tags := [] }] 1 "oldest" =
       .ok ([({ user_text := "a", intent := "x", emotion := "y", subtext_tags := [] } : Turn),
             { user_text := "b", intent := "x", emotion := "y", subtext_tags := [] }].drop
              ([({ user_text := "a", intent := "x", emotion := "y", subtext_tags := [] } : Turn),
                { user_text := "b", intent := "x", emotion := "y", subtext_tags := [] }].length - 1)) ∧
      StateManager.prune_turns
        [{ user_text := "a", intent := "x", emotion := "y", subtext_tags := [] },
         { user_text := "b", intent := "x", emotion := "y", subtext_tags := [] }] 1 "newest" =
       .ok ([({ user_text := "a", intent := "x", emotion := "y", subtext_tags := [] } : Turn),
             { user_text := "b", intent := "x", emotion := "y", subtext_tags := [] }].take 1)) ∧
     ("weird" ≠ "oldest" → "weird" ≠ "newest" →
        1 < [({ user_text := "a", intent := "x", emotion := "y", subtext_tags := [] } : Turn),
             { user_text := "b", intent := "x", emotion := "y", subtext_tags := [] }].length →
        StateManager.prune_turns
          [{ user_text := "a", intent := "x", emotion := "y", subtext_tags := [] },
           { user_text := "b", intent := "x", emotion := "y", subtext_tags := [] }] 1 "weird" =
          .error ("Unknown prune strategy: " ++ "weird")) ∧
     ("weird" ≠ "oldest" → "weird" ≠ "newest" →
        MemoryStore.prune ["m1", "m2"] 1 "weird" = ["m1", "m2"])) :=
  ⟨by decide, by decide,
   C7_prune_amended
     [{ user_text := "a", intent := "x", emotion := "y", subtext_tags := [] },
      { user_text := "b", intent := "x", emotion := "y", subtext_tags := [] }]
     ["m1", "m2"] 1 "weird" (by decide) (by decide)⟩

/-- C9 counterexample: `StateManager.append_turn` updates only
`last_intent`/`last_emotion`, so after appending a turn whose recorded phase
is GREETING the state still carries `current_state = "IDLE"`, violating the
claimed invariant at the StateManager level. -/
theorem C9_append_counterexample :
    (StateManager.append_turn {}
      { user_text := "hi", intent := "greeting", emotion := "neutral",
        subtext_tags := [], state := some "GREETING" }).current_state = "IDLE" ∧
    (StateManager.append_turn {}
      { user_text := "hi", intent := "greeting", emotion := "neutral",
        subtext_tags := [], state := some "GREETING" }).turns.getLast? =
      some { user_text := "hi", intent := "greeting", emotion := "neutral",
             subtext_tags := [], state := some "GREETING" } ∧
    some (StateManager.append_turn {}
      { user_text := "hi", intent := "greeting", emotion := "neutral",
        subtext_tags := [], state := some "GREETING" }).current_state ≠
      (({ user_text := "hi", intent := "greeting", emotion := "neutral",
          subtext_tags := [], state := some "GREETING" } : Turn)).state :=
  ⟨rfl, rfl, by decide⟩

/-- C9 (amended): the invariant does hold for the pipeline orchestrator:
after every `ChainBuilder.process_turn` with the concrete stages, exactly one
Turn is appended and the machine state equals the phase recorded on that most
recently appended Turn.  (`StateManager.append_turn`, by contrast, leaves
`current_state` untouched.) -/
theorem C9_phase_matches_last_turn (ord : List String → List String)
    (fmtD : Rat → String) (dmp : Summarizer.SummaryData → String)
    (bs : BuilderState) (inp : InferenceInput) (a : Option String) (now : Rat) :
    ∃ out bs2,
      ChainBuilder.process_turn ChainBuilder.realIntent ChainBuilder.realEmotion
        (ChainBuilder.realSubtext ord) ChainBuilder.realFsm
        (ChainBuilder.realSumm fmtD dmp) bs inp a now = .ok (out, bs2) ∧
      ∃ t, bs2.turns = bs.turns ++ [t] ∧
        bs2.turns.getLast? = some t ∧ t.state = some bs2.fsmState :=
  ⟨_, _, rfl, _, rfl, by rw [List.getLast?_concat], rfl⟩

/-- C2: the primary subtext signal is `signals[0]` of `list(set(signals))`,
an unordered-hash-set materialisation; two materialisation orders that are
both correct for the same set (same members, no duplicates) give different
primaries for identical `(text, emotion, intent)`, so the selection is not
determined by the inputs, contradicting the required determinism. -/
theorem C2_primary_depends_on_set_order :
    SubtextInferencer.rawSignals "thanks! sorry".data none none =
      ["apologetic", "gratitude", "emphasis"] ∧
    (["apologetic", "gratitude", "emphasis"] : List String).Nodup ∧
    (["apologetic", "gratitude", "emphasis"] : List String).reverse.Nodup ∧
    (["apologetic", "gratitude", "emphasis"] : List String).reverse.Perm
      ["apologetic", "gratitude", "emphasis"] ∧
    (SubtextInferencer.infer id "thanks! sorry" none none).map
      (fun r => r.primary) = .ok (some "apologetic") ∧
    (SubtextInferencer.infer List.reverse "thanks! sorry" none none).map
      (fun r => r.primary) = .ok (some "emphasis") ∧
    some "apologetic" ≠ some "emphasis" := by
  refine ⟨by decide, by decide, by decide, by decide, rfl, ?_, by decide⟩
  rfl

/-- C3: on empty or whitespace-only input the intent classifier returns
`unknown`, the emotion classifier returns `neutral` and `SubtextDetector.detect`
returns `[]` without error, but `SubtextInferencer.infer` does NOT return its
default `SubtextResult`: its guard constructs
`SubtextResult(primary=None, signals=[], confidence=0.0, rationale=...)`,
and `signals`/`confidence` are not dataclass fields, so the call raises
TypeError instead. -/
theorem C3_empty_input_defaults :
    SubtextInferencer.infer id "" none none =
      .error "TypeError: unexpected keyword argument signals" ∧
    SubtextInferencer.infer id "   " none none =
      .error "TypeError: unexpected keyword argument signals" ∧
    IntentClassifier.classify "" = "unknown" ∧
    IntentClassifier.classify "   " = "unknown" ∧
    EmotionClassifier.classify "" = "neutral" ∧
    EmotionClassifier.classify "   " = "neutral" ∧
    SubtextDetector.detect id "" = [] ∧
    SubtextDetector.detect id "   " = [] :=
  ⟨rfl, rfl, rfl, rfl, rfl, rfl, rfl, rfl⟩

/-- C4 counterexample: on text matching no category (`"zzz"`),
`IntentClassifier.classify_with_confidence` returns confidence `0.0`, not the
claimed `≈ 0.4`. -/
theorem C4_no_match_counterexample :
    IntentClassifier.noCategoryMatch (pyLowerL "zzz".data) = true ∧
    IntentClassifier.classify_with_confidence "zzz" = ("unknown", 0) ∧
    (IntentClassifier.classify_with_confidence "zzz").2 ≠ 2 / 5 := by
  have h2 : IntentClassifier.classify_with_confidence "zzz" = ("unknown", 0) := by decide
  refine ⟨by decide, h2, ?_⟩
  rw [h2]
  norm_num

/-- C4 (amended): `IntentClassifier.classify_with_confidence` returns
`("unknown", 0.0)` on empty or whitespace-only text, and also `("unknown",
0.0)` — not `≈ 0.4` — on text matching no category of the default catalog
(the `≈ 0.4` no-match confidence belongs to `IntentAnalyzer.classify`, a
different module). -/
theorem C4_cwc_unknown (s : String) :
    (isBlank s = true →
      IntentClassifier.classify_with_confidence s = ("unknown", 0)) ∧
    (IntentClassifier.noCategoryMatch (pyLowerL s.data) = true →
      IntentClassifier.classify_with_confidence s = ("unknown", 0)) := by
  constructor
  · intro h
    unfold IntentClassifier.classify_with_confidence
    rw [if_pos h]
  · intro h
    unfold IntentClassifier.classify_with_confidence
    by_cases hb : isBlank s = true
    · rw [if_pos hb]
    · rw [if_neg hb]
      unfold IntentClassifier.noCategoryMatch at h
      simp only [IntentClassifier.DEFAULT_INTENTS, List.all_cons, List.all_nil,
        Bool.and_eq_true, Bool.not_eq_true'] at h
      obtain ⟨hg, hgb, hh, hq, hyn, hwh, hch, hfb, hop, hin, hrq, hep, hen,
        hneu, hes, hex, hth, hap, hwe, hti, -⟩ := h
      unfold IntentClassifier.cwcL
      simp only [hg, hgb, hh, hq, hyn, hwh, hch, hfb, hop, hin, hrq, hep, hen,
        hneu, hes, hex, hth, hap, hwe, hti, Bool.false_eq_true, if_false]

/-- Witness for C4 (amended): empty text and the no-match text `"zzz"`. -/
theorem C4_cwc_unknown_witness :
    (isBlank "" = true ∧
      IntentClassifier.classify_with_confidence "" = ("unknown", 0)) ∧
    (IntentClassifier.noCategoryMatch (pyLowerL "zzz".data) = true ∧
      IntentClassifier.classify_with_confidence "zzz" = ("unknown", 0)) :=
  ⟨⟨by decide, (C4_cwc_unknown "").1 (by decide)⟩,
   ⟨by decide, (C4_cwc_unknown "zzz").2 (by decide)⟩⟩

-- C5 support lemmas ---------------------------------------------------------

lemma maxOf_zero {l : List Nat} (h : ∀ a ∈ l, a = 0) : EmotionClassifier.maxOf l = 0 := by
  induction l with
  | nil => rfl
  | cons x xs ih =>
    show max x (EmotionClassifier.maxOf xs) = 0
    rw [h x (List.mem_cons_self _ _), ih (fun a ha => h a (List.mem_cons_of_mem _ ha))]
    simp

lemma pyLower_blank {l : List Char} (h : isBlankL l = true) :
    ∀ c ∈ pyLowerL l, isPySpace c = true := by
  intro c hc
  rw [pyLowerL, List.mem_map] at hc
  obtain ⟨c0, hc0, rfl⟩ := hc
  rw [isBlankL, List.all_eq_true] at h
  have h0 := h c0 hc0
  revert h0
  simp only [isPySpace, Bool.or_eq_true, decide_eq_true_eq]
  rintro (((((rfl | rfl) | rfl) | rfl) | rfl) | rfl) <;> decide

lemma wordSearch_head_mem {w l : List Char} (hw : wordSearch w l = true) (hne : w ≠ []) :
    ∃ c, w.head? = some c ∧ c ∈ l := by
  unfold wordSearch at hw
  simp only [List.any_eq_true] at hw
  obtain ⟨i, -, hm⟩ := hw
  unfold wordMatchAt at hm
  simp only [Bool.and_eq_true, beq_iff_eq] at hm
  obtain ⟨htake, -⟩ := hm
  cases w with
  | nil => exact absurd rfl hne
  | cons c0 cs =>
    refine ⟨c0, rfl, ?_⟩
    have hmem : c0 ∈ (l.drop i).take (c0 :: cs).length := by
      rw [htake]; exact List.mem_cons_self _ _
    exact List.mem_of_mem_drop (List.mem_of_mem_take hmem)

lemma lexiconScore_zero {ws : List (String × Nat)} {t : List Char}
    (h : ∀ p ∈ ws, wordSearch (pyLowerL p.1.data) t = false) :
    EmotionClassifier.lexiconScore ws t = 0 := by
  unfold EmotionClassifier.lexiconScore
  have haux : ∀ (acc : Nat),
      ws.foldl (fun acc p => acc + (if wordSearch (pyLowerL p.1.data) t then p.2 else 0)) acc =
        acc := by
    induction ws with
    | nil => intro acc; rfl
    | cons p ps ih =>
      intro acc
      rw [List.foldl_cons, h p (List.mem_cons_self _ _)]
      simp only [Bool.false_eq_true, if_false, Nat.add_zero]
      exact ih (fun q hq => h q (List.mem_cons_of_mem _ hq)) acc
  exact haux 0

lemma runCountAux_zero {ch : Char} {l : List Char} (h : ∀ c ∈ l, (c == ch) = false) :
    ∀ b, runCountAux ch l b = 0 := by
  induction l with
  | nil => intro b; rfl
  | cons x xs ih =>
    intro b
    unfold runCountAux
    rw [h x (List.mem_cons_self _ _)]
    simp only [Bool.false_and, Bool.false_eq_true, if_false, Nat.zero_add]
    exact ih (fun c hc => h c (List.mem_cons_of_mem _ hc)) _

lemma space_ne_bang {c : Char} (h : isPySpace c = true) : (c == '!') = false := by
  revert h
  simp only [isPySpace, Bool.or_eq_true, decide_eq_true_eq]
  rintro (((((rfl | rfl) | rfl) | rfl) | rfl) | rfl) <;> decide

lemma space_ne_qmark {c : Char} (h : isPySpace c = true) : (c == '?') = false := by
  revert h
  simp only [isPySpace, Bool.or_eq_true, decide_eq_true_eq]
  rintro (((((rfl | rfl) | rfl) | rfl) | rfl) | rfl) <;> decide

lemma score_text_blank_zero {t : List Char} (ht : ∀ c ∈ t, isPySpace c = true) :
    ∀ p ∈ EmotionClassifier.score_text t, p.2 = 0 := by
  have hbang : runCount '!' t = 0 :=
    runCountAux_zero (fun c hc => space_ne_bang (ht c hc)) false
  have hqm : runCount '?' t = 0 :=
    runCountAux_zero (fun c hc => space_ne_qmark (ht c hc)) false
  have hheads : ∀ e ∈ EmotionClassifier.LEXICON, ∀ p ∈ e.2,
      Option.any (fun c => !isPySpace c) (pyLowerL p.1.data).head? = true := by decide
  have hlex : ∀ e ∈ EmotionClassifier.LEXICON, EmotionClassifier.lexiconScore e.2 t = 0 := by
    intro e he
    apply lexiconScore_zero
    intro p hp
    by_contra hws
    rw [Bool.not_eq_false] at hws
    have hopt := hheads e he p hp
    have hne : pyLowerL p.1.data ≠ [] := by
      intro h0
      rw [h0] at hopt
      simp at hopt
    obtain ⟨c, hhead, hmem⟩ := wordSearch_head_mem hws hne
    rw [hhead] at hopt
    simp only [Option.any_some, Bool.not_eq_true'] at hopt
    exact absurd (ht c hmem) (by rw [hopt]; decide)
  intro p hp
  unfold EmotionClassifier.score_text at hp
  rw [hbang, hqm] at hp
  simp only [Nat.lt_irrefl, if_false] at hp
  obtain ⟨e, he, rfl⟩ := List.mem_map.mp hp
  exact hlex e he

lemma bumpKey_keys (k : String) (v : Nat) (l : List (String × Nat)) :
    (EmotionClassifier.bumpKey k v l).map Prod.fst = l.map Prod.fst := by
  induction l with
  | nil => rfl
  | cons p ps ih =>
    unfold EmotionClassifier.bumpKey
    by_cases hk : p.1 = k
    · rw [if_pos hk]; simp
    · rw [if_neg hk]; simp [ih]

lemma score_text_keys_eq (t : List Char) :
    (EmotionClassifier.score_text t).map Prod.fst =
      ["joy", "sadness", "anger", "fear", "surprise", "tired"] ∨
    (EmotionClassifier.score_text t).map Prod.fst =
      ["joy", "sadness", "anger", "fear", "surprise", "tired", "neutral"] := by
  have hbase : ((EmotionClassifier.LEXICON.map fun e =>
      (e.1, EmotionClassifier.lexiconScore e.2 t)).map Prod.fst) =
      ["joy", "sadness", "anger", "fear", "surprise", "tired"] := by
    rw [List.map_map]; rfl
  unfold EmotionClassifier.score_text
  by_cases he : runCount '!' t > 0 <;> by_cases hq : runCount '?' t > 0 <;>
    by_cases hi : EmotionClassifier.inquiryHit t = true <;>
      simp [he, hq, hi, bumpKey_keys, hbase]

lemma score_text_keys {t : List Char} :
    ∀ p ∈ EmotionClassifier.score_text t, p.1 ∈ EmotionClassifier.PRIORITY_ORDER := by
  intro p hp
  have hmem : p.1 ∈ (EmotionClassifier.score_text t).map Prod.fst :=
    List.mem_map_of_mem _ hp
  revert hmem
  generalize p.1 = q
  intro hmem
  rcases score_text_keys_eq t with hk | hk <;> rw [hk] at hmem
  · simp only [List.mem_cons, List.not_mem_nil, or_false] at hmem
    rcases hmem with rfl | rfl | rfl | rfl | rfl | rfl <;> decide
  · simp only [List.mem_cons, List.not_mem_nil, or_false] at hmem
    rcases hmem with rfl | rfl | rfl | rfl | rfl | rfl | rfl <;> decide

lemma score_text_ne_nil (t : List Char) : EmotionClassifier.score_text t ≠ [] := by
  intro h0
  rcases score_text_keys_eq t with hk | hk <;> rw [h0] at hk <;> cases hk

/-- C5: for every non-empty input text, `EmotionClassifier.classify` returns
neutral when every category score (whole-word lexicon weights plus the
punctuation adjustments, as computed by `score_text`) is zero, and otherwise
returns a category achieving the strictly highest total score, where ties
among maximal categories are broken by the fixed priority order
joy > sadness > anger > fear > surprise > tired > neutral (smallest index in
`PRIORITY_ORDER` among the maximal entries). -/
theorem C5_emotion_selection (s : String) (_hs : s ≠ "") :
    ((∀ p ∈ EmotionClassifier.score_text (pyLowerL s.data), p.2 = 0) →
      EmotionClassifier.classify s = "neutral") ∧
    ((∃ p ∈ EmotionClassifier.score_text (pyLowerL s.data), p.2 ≠ 0) →
      ∃ w, (EmotionClassifier.classify s, w) ∈ EmotionClassifier.score_text (pyLowerL s.data) ∧
        (∀ p ∈ EmotionClassifier.score_text (pyLowerL s.data), p.2 ≤ w) ∧
        (∀ p ∈ EmotionClassifier.score_text (pyLowerL s.data), p.2 = w →
          EmotionClassifier.PRIORITY_ORDER.indexOf (EmotionClassifier.classify s) ≤
            EmotionClassifier.PRIORITY_ORDER.indexOf p.1)) := by
  by_cases hb : isBlank s = true
  · have hzero : ∀ p ∈ EmotionClassifier.score_text (pyLowerL s.data), p.2 = 0 :=
      score_text_blank_zero (pyLower_blank hb)
    constructor
    · intro _
      unfold EmotionClassifier.classify
      rw [if_pos hb]
    · rintro ⟨p, hp, hne⟩
      exact absurd (hzero p hp) hne
  · have hcl : EmotionClassifier.classify s =
        (if EmotionClassifier.maxOf
              ((EmotionClassifier.score_text (pyLowerL s.data)).map Prod.snd) = 0
         then "neutral"
         else
           match EmotionClassifier.PRIORITY_ORDER.find? (fun q =>
             (((EmotionClassifier.score_text (pyLowerL s.data)).filter fun p =>
                 p.2 == EmotionClassifier.maxOf
                   ((EmotionClassifier.score_text (pyLowerL s.data)).map Prod.snd)).map
               Prod.fst).contains q) with
           | some q => q
           | none => "neutral") := by
      unfold EmotionClassifier.classify
      rw [if_neg hb]
    constructor
    · intro hz
      have hm0 : EmotionClassifier.maxOf
          ((EmotionClassifier.score_text (pyLowerL s.data)).map Prod.snd) = 0 := by
        apply maxOf_zero
        intro a ha
        obtain ⟨p, hp, rfl⟩ := List.mem_map.mp ha
        exact hz p hp
      rw [hcl, if_pos hm0]
    · rintro ⟨p0, hp0, hp0ne⟩
      set sc := EmotionClassifier.score_text (pyLowerL s.data) with hscdef
      set m := EmotionClassifier.maxOf (sc.map Prod.snd) with hmdef
      have hle0 : p0.2 ≤ m := le_maxOf (List.mem_map_of_mem _ hp0)
      have hmne : ¬(m = 0) := fun h0 => hp0ne (Nat.le_zero.mp (h0 ▸ hle0))
      have hscne : sc ≠ [] := score_text_ne_nil _
      have hmapne : sc.map Prod.snd ≠ [] := by simpa using hscne
      have hmmem : m ∈ sc.map Prod.snd := maxOf_mem hmapne
      obtain ⟨pm, hpm, hpm2⟩ := List.mem_map.mp hmmem
      have hpmtop : pm.1 ∈ (sc.filter fun p => p.2 == m).map Prod.fst :=
        List.mem_map_of_mem _ (List.mem_filter.mpr ⟨hpm, by rw [hpm2]; exact beq_self_eq_true m⟩)
      have hfind : (EmotionClassifier.PRIORITY_ORDER.find? (fun q =>
          ((sc.filter fun p => p.2 == m).map Prod.fst).contains q)).isSome := by
        rw [List.find?_isSome]
        exact ⟨pm.1, score_text_keys pm hpm, List.elem_eq_true_of_mem hpmtop⟩
      obtain ⟨w0, hw0⟩ := Option.isSome_iff_exists.mp hfind
      obtain ⟨hpredw, hminw⟩ := find?_first hw0
      have hclw : EmotionClassifier.classify s = w0 := by
        rw [hcl, if_neg hmne, hw0]
      have hw0top : w0 ∈ (sc.filter fun p => p.2 == m).map Prod.fst :=
        List.mem_of_elem_eq_true hpredw
      obtain ⟨q0, hq0f, hq0⟩ := List.mem_map.mp hw0top
      have hq0mem : q0 ∈ sc := List.mem_of_mem_filter hq0f
      have hq0m : q0.2 = m := beq_iff_eq.mp (List.mem_filter.mp hq0f).2
      refine ⟨m, ?_, ?_, ?_⟩
      · rw [hclw]
        have hq0eq : q0 = (w0, m) := by
          cases q0 with
          | mk a b =>
            simp only at hq0 hq0m
            rw [hq0, hq0m]
        rw [← hq0eq]
        exact hq0mem
      · intro p hp
        exact le_maxOf (List.mem_map_of_mem _ hp)
      · intro p hp hpm'
        rw [hclw]
        apply hminw p.1 (score_text_keys p hp)
        apply List.elem_eq_true_of_mem
        exact List.mem_map_of_mem _
          (List.mem_filter.mpr ⟨hp, by rw [hpm']; exact beq_self_eq_true m⟩)

/-- Witness for C5 at a concrete input with a non-zero score. -/
theorem C5_emotion_selection_witness :
    ("wow great!" ≠ "") ∧
    (∃ p ∈ EmotionClassifier.score_text (pyLowerL "wow great!".data), p.2 ≠ 0) ∧
    (∃ w, (EmotionClassifier.classify "wow great!", w) ∈
        EmotionClassifier.score_text (pyLowerL "wow great!".data) ∧
      (∀ p ∈ EmotionClassifier.score_text (pyLowerL "wow great!".data), p.2 ≤ w) ∧
      (∀ p ∈ EmotionClassifier.score_text (pyLowerL "wow great!".data), p.2 = w →
        EmotionClassifier.PRIORITY_ORDER.indexOf (EmotionClassifier.classify "wow great!") ≤
          EmotionClassifier.PRIORITY_ORDER.indexOf p.1)) :=
  ⟨by decide, by decide,
   (C5_emotion_selection "wow great!" (by decide)).2 (by decide)⟩

/-- C8: the summary is a function of only the last `max_turns` turns: when
the history exceeds the configured bound, `Summarizer.summarize` (for every
configuration with a validated positive `max_turns`, every rendering style,
and every timestamp/json library behaviour) produces the same output as on
the truncated history, so per-turn content and every aggregate insight are
computed over exactly that window and never over older turns. -/
theorem C8_summarizer_window (fmtDate : Rat → String)
    (dumps : Summarizer.SummaryData → String) (cfg : SummaryConfig)
    (turns : List Turn) (h1 : 1 ≤ cfg.max_turns) (h2 : cfg.max_turns < turns.length) :
    Summarizer.summarize fmtDate dumps cfg turns =
      Summarizer.summarize fmtDate dumps cfg
        (turns.drop (turns.length - cfg.max_turns)) := by
  have hne : turns ≠ [] := by
    intro he
    rw [he] at h2
    simp only [List.length_nil] at h2
    omega
  have hlen : (turns.drop (turns.length - cfg.max_turns)).length = cfg.max_turns := by
    rw [List.length_drop]
    omega
  have hne2 : turns.drop (turns.length - cfg.max_turns) ≠ [] := by
    intro he
    rw [he] at hlen
    simp only [List.length_nil] at hlen
    omega
  have hslice : sliceLast cfg.max_turns turns =
      turns.drop (turns.length - cfg.max_turns) := by
    unfold sliceLast
    rw [if_neg (by omega)]
  have hslice2 : sliceLast cfg.max_turns (turns.drop (turns.length - cfg.max_turns)) =
      turns.drop (turns.length - cfg.max_turns) := by
    unfold sliceLast
    rw [if_neg (by omega), hlen, Nat.sub_self, List.drop_zero]
  unfold Summarizer.summarize
  rw [if_neg hne, if_neg hne2, hslice, hslice2]

/-- Witness for C8: a three-turn history summarized with `max_turns = 2`. -/
theorem C8_summarizer_window_witness :
    (1 ≤ ({ max_turns := 2 } : SummaryConfig).max_turns) ∧
    (({ max_turns := 2 } : SummaryConfig).max_turns <
      [({ user_text := "a", intent := "greeting", emotion := "joy", subtext_tags := [] } : Turn),
       { user_text := "b?", intent := "question", emotion := "neutral", subtext_tags := ["hedging"] },
       { user_text := "c", intent := "thanks", emotion := "neutral", subtext_tags := [] }].length) ∧
    Summarizer.summarize (fun _ => "") (fun _ => "") { max_turns := 2 }
        [{ user_text := "a", intent := "greeting", emotion := "joy", subtext_tags := [] },
         { user_text := "b?", intent := "question", emotion := "neutral", subtext_tags := ["hedging"] },
         { user_text := "c", intent := "thanks", emotion := "neutral", subtext_tags := [] }] =
      Summarizer.summarize (fun _ => "") (fun _ => "") { max_turns := 2 }
        ([({ user_text := "a", intent := "greeting", emotion := "joy", subtext_tags := [] } : Turn),
          { user_text := "b?", intent := "question", emotion := "neutral", subtext_tags := ["hedging"] },
          { user_text := "c", intent := "thanks", emotion := "neutral", subtext_tags := [] }].drop
         ([({ user_text := "a", intent := "greeting", emotion := "joy", subtext_tags := [] } : Turn),
           { user_text := "b?", intent := "question", emotion := "neutral", subtext_tags := ["hedging"] },
           { user_text := "c", intent := "thanks", emotion := "neutral", subtext_tags := [] }].length -
          ({ max_turns := 2 } : SummaryConfig).max_turns)) :=
  ⟨by decide, by decide,
   C8_summarizer_window (fun _ => "") (fun _ => "") { max_turns := 2 }
     [{ user_text := "a", intent := "greeting", emotion := "joy", subtext_tags := [] },
      { user_text := "b?", intent := "question", emotion := "neutral", subtext_tags := ["hedging"] },
      { user_text := "c", intent := "thanks", emotion := "neutral", subtext_tags := [] }]
     (by decide) (by decide)⟩

/-- C1: with the concrete stages, `ChainBuilder.process_turn` returns a
unified output and appends exactly one Turn for every input (first
conjunct).  Under forced stage failures, the documented defaults are
substituted for the intent (`"unknown"`), emotion (`"neutral"`) and subtext
(`[]`) stages with the Turn still appended, and a summarizer failure yields
an empty summary string — but a state-transition stage failure does NOT
yield the documented default Transition: the except handler constructs
`Transition(previous="unknown", current="unknown", trigger=None)` with an
invalid keyword argument, so the call raises TypeError instead of returning
(last conjunct), contradicting the claimed resilience contract. -/
theorem C1_orchestrator_resilience :
    (∀ (ord : List String → List String) (fmtDate : Rat → String)
       (dumps : Summarizer.SummaryData → String) (bs : BuilderState)
       (inp : InferenceInput) (a : Option String) (now : Rat),
       ∃ out bs2,
         ChainBuilder.process_turn ChainBuilder.realIntent ChainBuilder.realEmotion
           (ChainBuilder.realSubtext ord) ChainBuilder.realFsm
           (ChainBuilder.realSumm fmtDate dumps) bs inp a now = .ok (out, bs2) ∧
         ∃ t, bs2.turns = bs.turns ++ [t]) ∧
    (∃ out bs2,
       ChainBuilder.process_turn (fun _ => .error "boom") ChainBuilder.realEmotion
         (ChainBuilder.realSubtext id) ChainBuilder.realFsm (fun _ => .ok "")
         {} ⟨some "hello"⟩ none 0 = .ok (out, bs2) ∧
       out.intent = "unknown" ∧ ∃ t, bs2.turns = [t] ∧ t.intent = "unknown") ∧
    (∃ out bs2,
       ChainBuilder.process_turn ChainBuilder.realIntent (fun _ => .error "boom")
         (ChainBuilder.realSubtext id) ChainBuilder.realFsm (fun _ => .ok "")
         {} ⟨some "hello"⟩ none 0 = .ok (out, bs2) ∧
       out.emotion = "neutral" ∧ ∃ t, bs2.turns = [t] ∧ t.emotion = "neutral") ∧
    (∃ out bs2,
       ChainBuilder.process_turn ChainBuilder.realIntent ChainBuilder.realEmotion
         (fun _ => .error "boom") ChainBuilder.realFsm (fun _ => .ok "")
         {} ⟨some "hello"⟩ none 0 = .ok (out, bs2) ∧
       out.subtext_tags = [] ∧ ∃ t, bs2.turns = [t] ∧ t.subtext_tags = []) ∧
    (∃ out bs2,
       ChainBuilder.process_turn ChainBuilder.realIntent ChainBuilder.realEmotion
         (ChainBuilder.realSubtext id) ChainBuilder.realFsm (fun _ => .error "boom")
         {} ⟨some "hello"⟩ none 0 = .ok (out, bs2) ∧
       out.summary = some "" ∧ ∃ t, bs2.turns = [t]) ∧
    (ChainBuilder.process_turn ChainBuilder.realIntent ChainBuilder.realEmotion
       (ChainBuilder.realSubtext id) (fun _ _ _ => .error "boom") (fun _ => .ok "")
       {} ⟨some "hello"⟩ none 0 =
      .error "TypeError: unexpected keyword argument trigger") := by
  refine ⟨fun ord fmtDate dumps bs inp a now => ⟨_, _, rfl, _, rfl⟩,
    ⟨_, _, rfl, rfl, _, rfl, rfl⟩,
    ⟨_, _, rfl, rfl, _, rfl, rfl⟩,
    ⟨_, _, rfl, rfl, _, rfl, rfl⟩,
    ⟨_, _, rfl, rfl, _, rfl⟩,
    rfl⟩
